import Mathlib

/-!
Verification of `apiundo` (src/apiundo.py), a shim that lets Maya API
mutations participate in the host's undo queue.  The module keeps two
shared lists (`shared.undoHistory`, `shared.redoHistory`); `commit`
appends an undo/redo pair and invokes the no-op `apiUndo` command so the
host records an undoable step; the command's `undoIt`/`redoIt` hooks pop
the most recent stored function and call it.

The embedding is shallow: stored Python functions are opaque tokens
(`Func`), side effects on the host are recorded as events in a trace, and
Python's `list.pop()` (which raises `IndexError` on an empty list) is
modelled by `pyPop` returning `Option`.
-/

namespace Apiundo

/-- An opaque token for a Python callable handed to `commit`.  `noop` is
the module's default redo `lambda: None` (src/apiundo.py line 59); `user f`
is a user-supplied function identified by `f`. -/
inductive Func (α : Type) where
  | noop
  | user (f : α)
deriving DecidableEq, Repr

/-- Interpretation of a stored callable as an action on an external world
`W`: the default `lambda: None` does nothing, a user function acts through
the given interpretation. -/
def applyFunc {α W : Type} (interp : α → W → W) : Func α → W → W
  | Func.noop => fun w => w
  | Func.user f => interp f

/-- The shared module state (src/apiundo.py lines 54-56): the module
object `sys.modules["apiundo"]` used as a side table, holding the two
history lists, both initialised empty. -/
structure Shared (α : Type) where
  undoHistory : List (Func α)
  redoHistory : List (Func α)
deriving DecidableEq, Repr

/-- The initial shared state: `shared.undoHistory = list()` and
`shared.redoHistory = list()`. -/
def initialShared {α : Type} : Shared α :=
  { undoHistory := [], redoHistory := [] }

/-- Observable effects of the shim: appends to the two shared lists,
the `cmds.apiUndo()` call signalling the host, `displayInfo` messages,
pops from the lists, and invocations of stored callables. -/
inductive Event (α : Type) where
  | appendUndo (f : Func α)
  | appendRedo (f : Func α)
  | hostApiUndo
  | displayInfo (msg : String)
  | popUndo (f : Func α)
  | popRedo (f : Func α)
  | callFunc (f : Func α)
deriving DecidableEq, Repr

/-- A Python exception surfaced by the shim. -/
inductive PyError where
  | indexError (msg : String)
deriving DecidableEq, Repr

/-- Python `list.pop()` with no index: remove and return the last
element; `none` models the `IndexError` raised on an empty list. -/
def pyPop {β : Type} (l : List β) : Option (List β × β) :=
  match l.getLast? with
  | none => none
  | some x => some (l.dropLast, x)

/-- `commit(undo, redo=lambda: None)` (src/apiundo.py lines 59-72):
append `undo` to `shared.undoHistory` and `redo` to `shared.redoHistory`,
then call `cmds.apiUndo()`.  Returns the new shared state and the trace of
effects in program order. -/
def commit {α : Type} (s : Shared α) (undo : Func α)
    (redo : Func α := Func.noop) : Shared α × List (Event α) :=
  ({ undoHistory := s.undoHistory ++ [undo],
     redoHistory := s.redoHistory ++ [redo] },
   [Event.appendUndo undo, Event.appendRedo redo, Event.hostApiUndo])

/-- Outcome of one of the `apiUndo` command's methods: the shared state
after the call, the effects it performed in order, and the exception it
raised, if any. -/
structure MethodResult (α : Type) where
  state : Shared α
  trace : List (Event α)
  error : Option PyError
deriving DecidableEq, Repr

namespace apiUndo

/-- `apiUndo.doIt(self, args)` (src/apiundo.py lines 98-99): `pass`. -/
def doIt {α A : Type} (s : Shared α) (args : A) : Shared α × List (Event α) :=
  (s, [])

/-- `apiUndo.undoIt(self)` (src/apiundo.py lines 101-104): print
"Undoing..", pop the last element of `shared.undoHistory`, call it.  The
pop raises `IndexError` on an empty list, leaving the state unchanged. -/
def undoIt {α : Type} (s : Shared α) : MethodResult α :=
  match pyPop s.undoHistory with
  | none =>
      { state := s,
        trace := [Event.displayInfo "Undoing.."],
        error := some (PyError.indexError "pop from empty list") }
  | some (rest, func) =>
      { state := { s with undoHistory := rest },
        trace := [Event.displayInfo "Undoing..", Event.popUndo func,
                  Event.callFunc func],
        error := none }

/-- `apiUndo.redoIt(self)` (src/apiundo.py lines 106-109): print
"Redoing..", pop the last element of `shared.redoHistory`, call it. -/
def redoIt {α : Type} (s : Shared α) : MethodResult α :=
  match pyPop s.redoHistory with
  | none =>
      { state := s,
        trace := [Event.displayInfo "Redoing.."],
        error := some (PyError.indexError "pop from empty list") }
  | some (rest, func) =>
      { state := { s with redoHistory := rest },
        trace := [Event.displayInfo "Redoing..", Event.popRedo func,
                  Event.callFunc func],
        error := none }

/-- `apiUndo.isUndoable(self)` (src/apiundo.py lines 111-113):
`return True`, in every state. -/
def isUndoable {α : Type} (s : Shared α) : Bool :=
  true

end apiUndo

/-- `os.path.basename` as used on this module's file path: the part of
the path after the last separator. -/
def basename (p : String) : String :=
  (p.splitOn "/").getLastD p

/-- A call the plumbing functions make into the host (`maya.cmds`,
`sys.modules`, `__import__`). -/
inductive HostCall where
  | loadPlugin (file : String) (quiet : Bool)
  | unloadPlugin (file : String)
  | undoInfoQueryState
  | undoInfoSetState (state : Bool)
  | popModule (name : String)
  | importModule (name : String)
deriving DecidableEq, Repr

/-- The module's `__name__`, `"apiundo"` (the module is imported before
the plug-in is loaded, src/apiundo.py lines 50-54). -/
def moduleName : String := "apiundo"

/-- `install()` (src/apiundo.py lines 75-76):
`cmds.loadPlugin(__file__, quiet=True)`.  `file` stands for `__file__`. -/
def install (file : String) : List HostCall :=
  [HostCall.loadPlugin file true]

/-- `uninstall()` (src/apiundo.py lines 79-80):
`cmds.unloadPlugin(os.path.basename(__file__))`. -/
def uninstall (file : String) : List HostCall :=
  [HostCall.unloadPlugin (basename file)]

/-- `reinstall()` (src/apiundo.py lines 83-94): query the host undo-queue
state, set it off and back to the queried value (flushing the queue),
uninstall, drop the module from `sys.modules`, re-import it, call the
fresh module's `install()`, and return the fresh module.
`undoQueueState` is the host's answer to the `undoInfo` query; the
returned `String` is the fresh module object, identified by its name. -/
def reinstall (file : String) (undoQueueState : Bool) :
    String × List HostCall :=
  (moduleName,
   [HostCall.undoInfoQueryState,
    HostCall.undoInfoSetState false,
    HostCall.undoInfoSetState undoQueueState]
   ++ uninstall file
   ++ [HostCall.popModule moduleName, HostCall.importModule moduleName]
   ++ install file)

/-- One call into the shim's mutating API, for reasoning about call
sequences: a `commit` with its pair, or the host driving `undoIt` or
`redoIt`. -/
inductive Op (α : Type) where
  | commit (undo redo : Func α)
  | undoIt
  | redoIt
deriving DecidableEq, Repr

/-- Effect of one call on the shared state. -/
def applyOp {α : Type} : Op α → Shared α → Shared α
  | Op.commit u r, s => (commit s u r).1
  | Op.undoIt, s => (apiUndo.undoIt s).state
  | Op.redoIt, s => (apiUndo.redoIt s).state

/-- Run a sequence of calls left to right. -/
def runOps {α : Type} : List (Op α) → Shared α → Shared α
  | [], s => s
  | op :: rest, s => runOps rest (applyOp op s)

/-- Number of pending undo functions after a call sequence, starting from
`n` pending: each `commit` adds one, each `undoIt` removes one if any is
left (a pop on an empty list fails and removes nothing). -/
def pendingUndoCount {α : Type} : List (Op α) → Nat → Nat
  | [], n => n
  | Op.commit _ _ :: rest, n => pendingUndoCount rest (n + 1)
  | Op.undoIt :: rest, n => pendingUndoCount rest (n - 1)
  | Op.redoIt :: rest, n => pendingUndoCount rest n

/-- Number of pending redo functions after a call sequence: each `commit`
adds one, each `redoIt` removes one if any is left. -/
def pendingRedoCount {α : Type} : List (Op α) → Nat → Nat
  | [], n => n
  | Op.commit _ _ :: rest, n => pendingRedoCount rest (n + 1)
  | Op.undoIt :: rest, n => pendingRedoCount rest n
  | Op.redoIt :: rest, n => pendingRedoCount rest (n - 1)

/-! Helper lemmas about `pyPop` and the two pop-and-call methods. -/

/-- `pyPop` fails exactly on the empty list. -/
theorem pyPop_nil {β : Type} : pyPop ([] : List β) = none := rfl

/-- `pyPop` on a non-empty list removes and returns its last element. -/
theorem pyPop_eq_some {β : Type} (l : List β) (h : l ≠ []) :
    pyPop l = some (l.dropLast, l.getLast h) := by
  simp [pyPop, List.getLast?_eq_getLast l h]

/-- `undoIt` on an empty undo history: the message is printed, the pop
raises, state is untouched. -/
theorem undoIt_of_nil {α : Type} (s : Shared α) (h : s.undoHistory = []) :
    apiUndo.undoIt s =
      { state := s,
        trace := [Event.displayInfo "Undoing.."],
        error := some (PyError.indexError "pop from empty list") } := by
  simp [apiUndo.undoIt, pyPop, h]

/-- `undoIt` on a non-empty undo history: pop the last stored undo
function and call it. -/
theorem undoIt_of_ne_nil {α : Type} (s : Shared α) (h : s.undoHistory ≠ []) :
    apiUndo.undoIt s =
      { state := { s with undoHistory := s.undoHistory.dropLast },
        trace := [Event.displayInfo "Undoing..",
                  Event.popUndo (s.undoHistory.getLast h),
                  Event.callFunc (s.undoHistory.getLast h)],
        error := none } := by
  simp [apiUndo.undoIt, pyPop_eq_some s.undoHistory h]

/-- `redoIt` on an empty redo history: the message is printed, the pop
raises, state is untouched. -/
theorem redoIt_of_nil {α : Type} (s : Shared α) (h : s.redoHistory = []) :
    apiUndo.redoIt s =
      { state := s,
        trace := [Event.displayInfo "Redoing.."],
        error := some (PyError.indexError "pop from empty list") } := by
  simp [apiUndo.redoIt, pyPop, h]

/-- `redoIt` on a non-empty redo history: pop the last stored redo
function and call it. -/
theorem redoIt_of_ne_nil {α : Type} (s : Shared α) (h : s.redoHistory ≠ []) :
    apiUndo.redoIt s =
      { state := { s with redoHistory := s.redoHistory.dropLast },
        trace := [Event.displayInfo "Redoing..",
                  Event.popRedo (s.redoHistory.getLast h),
                  Event.callFunc (s.redoHistory.getLast h)],
        error := none } := by
  simp [apiUndo.redoIt, pyPop_eq_some s.redoHistory h]

/-- `undoIt` shortens the undo history by one when it can, leaves it
empty otherwise (truncated subtraction covers both cases). -/
theorem undoIt_undo_length {α : Type} (s : Shared α) :
    (apiUndo.undoIt s).state.undoHistory.length = s.undoHistory.length - 1 := by
  rcases eq_or_ne s.undoHistory [] with h | h
  · simp [undoIt_of_nil s h, h]
  · simp [undoIt_of_ne_nil s h]

/-- `undoIt` never touches the redo history. -/
theorem undoIt_redo_eq {α : Type} (s : Shared α) :
    (apiUndo.undoIt s).state.redoHistory = s.redoHistory := by
  rcases eq_or_ne s.undoHistory [] with h | h
  · simp [undoIt_of_nil s h]
  · simp [undoIt_of_ne_nil s h]

/-- `redoIt` shortens the redo history by one when it can, leaves it
empty otherwise. -/
theorem redoIt_redo_length {α : Type} (s : Shared α) :
    (apiUndo.redoIt s).state.redoHistory.length = s.redoHistory.length - 1 := by
  rcases eq_or_ne s.redoHistory [] with h | h
  · simp [redoIt_of_nil s h, h]
  · simp [redoIt_of_ne_nil s h]

/-- `redoIt` never touches the undo history. -/
theorem redoIt_undo_eq {α : Type} (s : Shared α) :
    (apiUndo.redoIt s).state.undoHistory = s.undoHistory := by
  rcases eq_or_ne s.redoHistory [] with h | h
  · simp [redoIt_of_nil s h]
  · simp [redoIt_of_ne_nil s h]

/-- Along any call sequence the undo-history length follows
`pendingUndoCount`. -/
theorem runOps_undo_length {α : Type} :
    ∀ (ops : List (Op α)) (s : Shared α),
      (runOps ops s).undoHistory.length
        = pendingUndoCount ops s.undoHistory.length
  | [], _ => rfl
  | Op.commit u r :: rest, s => by
      have ih := runOps_undo_length rest (applyOp (Op.commit u r) s)
      simpa [runOps, applyOp, commit, pendingUndoCount] using ih
  | Op.undoIt :: rest, s => by
      have ih := runOps_undo_length rest (applyOp Op.undoIt s)
      simpa [runOps, applyOp, pendingUndoCount, undoIt_undo_length] using ih
  | Op.redoIt :: rest, s => by
      have ih := runOps_undo_length rest (applyOp Op.redoIt s)
      simpa [runOps, applyOp, pendingUndoCount, redoIt_undo_eq] using ih

/-- Along any call sequence the redo-history length follows
`pendingRedoCount`. -/
theorem runOps_redo_length {α : Type} :
    ∀ (ops : List (Op α)) (s : Shared α),
      (runOps ops s).redoHistory.length
        = pendingRedoCount ops s.redoHistory.length
  | [], _ => rfl
  | Op.commit u r :: rest, s => by
      have ih := runOps_redo_length rest (applyOp (Op.commit u r) s)
      simpa [runOps, applyOp, commit, pendingRedoCount] using ih
  | Op.undoIt :: rest, s => by
      have ih := runOps_redo_length rest (applyOp Op.undoIt s)
      simpa [runOps, applyOp, pendingRedoCount, undoIt_redo_eq] using ih
  | Op.redoIt :: rest, s => by
      have ih := runOps_redo_length rest (applyOp Op.redoIt s)
      simpa [runOps, applyOp, pendingRedoCount, redoIt_redo_length] using ih

/-! The claims. -/

/-- C1: `commit(undo, redo)` first appends `undo` to `shared.undoHistory`
and `redo` to `shared.redoHistory` (storing the pair in the side table),
and only then invokes the host's no-op `apiUndo` command: the host signal
is the last event of the trace, occurs nowhere earlier in it, and both
append events precede it, so the host is signalled exactly once per
commit and only after both functions are stored. -/
theorem commit_stores_pair_then_signals_once {α : Type}
    (s : Shared α) (u r : Func α) :
    (commit s u r).1.undoHistory = s.undoHistory ++ [u] ∧
    (commit s u r).1.redoHistory = s.redoHistory ++ [r] ∧
    ∃ pre : List (Event α),
      (commit s u r).2 = pre ++ [Event.hostApiUndo] ∧
      Event.hostApiUndo ∉ pre ∧
      Event.appendUndo u ∈ pre ∧ Event.appendRedo r ∈ pre := by
  refine ⟨rfl, rfl, [Event.appendUndo u, Event.appendRedo r], rfl, ?_, ?_, ?_⟩
  · simp
  · simp
  · simp

/-- C2 is false as stated: two `commit` calls with no intervening undo or
redo leave two pending undo functions and two pending redo functions, not
at most one of each. -/
theorem two_commits_leave_two_pending :
    ¬ ((runOps [Op.commit (Func.user 0) Func.noop,
                Op.commit (Func.user 1) Func.noop]
          (initialShared : Shared Nat)).undoHistory.length ≤ 1 ∧
       (runOps [Op.commit (Func.user 0) Func.noop,
                Op.commit (Func.user 1) Func.noop]
          (initialShared : Shared Nat)).redoHistory.length ≤ 1) := by
  decide

/-- C2 (amended): after any sequence of `commit`, `undoIt` and `redoIt`
calls from the initial state, the shim holds one pending undo function
per commit not yet consumed by a successful `undoIt` pop, and one pending
redo function per commit not yet consumed by a successful `redoIt` pop
(a pop on an empty history fails and consumes nothing); the count is
bounded by one only when no two commits are outstanding at once. -/
theorem pending_pairs_track_commits {α : Type} (ops : List (Op α)) :
    (runOps ops (initialShared : Shared α)).undoHistory.length
      = pendingUndoCount ops 0 ∧
    (runOps ops (initialShared : Shared α)).redoHistory.length
      = pendingRedoCount ops 0 :=
  ⟨runOps_undo_length ops initialShared, runOps_redo_length ops initialShared⟩

/-- C3 is false as stated: `undoIt` called with an empty undo history
does not make the history one entry shorter — the pop raises and the
length stays 0. -/
theorem undoIt_on_empty_not_one_shorter :
    ¬ ((apiUndo.undoIt (initialShared : Shared Nat)).state.undoHistory.length + 1
        = (initialShared : Shared Nat).undoHistory.length) := by
  decide

/-- C3 (amended): each `commit` makes each history exactly one entry
longer; `undoIt` makes the undo history one entry shorter when it is
non-empty and leaves it unchanged when it is empty (the truncated
subtraction states both cases), never touching the redo history;
symmetrically for `redoIt`; `doIt` changes nothing.  No operation changes
a history length by more than one. -/
theorem history_lengths_change_by_at_most_one {α A : Type}
    (s : Shared α) (u r : Func α) (args : A) :
    (commit s u r).1.undoHistory.length = s.undoHistory.length + 1 ∧
    (commit s u r).1.redoHistory.length = s.redoHistory.length + 1 ∧
    (apiUndo.undoIt s).state.undoHistory.length = s.undoHistory.length - 1 ∧
    (apiUndo.undoIt s).state.redoHistory = s.redoHistory ∧
    (apiUndo.redoIt s).state.redoHistory.length = s.redoHistory.length - 1 ∧
    (apiUndo.redoIt s).state.undoHistory = s.undoHistory ∧
    (apiUndo.doIt s args).1 = s := by
  refine ⟨by simp [commit], by simp [commit], undoIt_undo_length s,
    undoIt_redo_eq s, redoIt_redo_length s, redoIt_undo_eq s, rfl⟩

/-- C4: on a non-empty undo history, `undoIt` removes the most recently
appended undo function (the last element) from `shared.undoHistory`,
leaves the redo history alone, raises nothing, and calls exactly that
function. -/
theorem undoIt_pops_and_calls_most_recent {α : Type} (s : Shared α)
    (h : s.undoHistory ≠ []) :
    (apiUndo.undoIt s).error = none ∧
    (apiUndo.undoIt s).state.undoHistory = s.undoHistory.dropLast ∧
    (apiUndo.undoIt s).state.redoHistory = s.redoHistory ∧
    (apiUndo.undoIt s).trace =
      [Event.displayInfo "Undoing..",
       Event.popUndo (s.undoHistory.getLast h),
       Event.callFunc (s.undoHistory.getLast h)] := by
  simp [undoIt_of_ne_nil s h]

/-- Witness for C4 at a concrete two-entry history: the later commit's
function `user 1` is popped and called, `user 0` stays pending. -/
theorem undoIt_pops_and_calls_most_recent_witness :
    ((⟨[Func.user 0, Func.user 1], []⟩ : Shared Nat).undoHistory ≠ []) ∧
    (apiUndo.undoIt (⟨[Func.user 0, Func.user 1], []⟩ : Shared Nat)).error
      = none ∧
    (apiUndo.undoIt
        (⟨[Func.user 0, Func.user 1], []⟩ : Shared Nat)).state.undoHistory
      = [Func.user 0] ∧
    Event.callFunc (Func.user 1)
      ∈ (apiUndo.undoIt (⟨[Func.user 0, Func.user 1], []⟩ : Shared Nat)).trace := by
  have h := undoIt_pops_and_calls_most_recent
    (⟨[Func.user 0, Func.user 1], []⟩ : Shared Nat) (by decide)
  exact ⟨by decide, h.1, by decide, by decide⟩

/-- C5: on a non-empty redo history, `redoIt` removes the most recently
appended redo function (the last element) from `shared.redoHistory`,
leaves the undo history alone, raises nothing, and calls exactly that
function. -/
theorem redoIt_pops_and_calls_most_recent {α : Type} (s : Shared α)
    (h : s.redoHistory ≠ []) :
    (apiUndo.redoIt s).error = none ∧
    (apiUndo.redoIt s).state.redoHistory = s.redoHistory.dropLast ∧
    (apiUndo.redoIt s).state.undoHistory = s.undoHistory ∧
    (apiUndo.redoIt s).trace =
      [Event.displayInfo "Redoing..",
       Event.popRedo (s.redoHistory.getLast h),
       Event.callFunc (s.redoHistory.getLast h)] := by
  simp [redoIt_of_ne_nil s h]

/-- Witness for C5 at a concrete two-entry history. -/
theorem redoIt_pops_and_calls_most_recent_witness :
    ((⟨[], [Func.user 2, Func.user 3]⟩ : Shared Nat).redoHistory ≠ []) ∧
    (apiUndo.redoIt (⟨[], [Func.user 2, Func.user 3]⟩ : Shared Nat)).error
      = none ∧
    (apiUndo.redoIt
        (⟨[], [Func.user 2, Func.user 3]⟩ : Shared Nat)).state.redoHistory
      = [Func.user 2] ∧
    Event.callFunc (Func.user 3)
      ∈ (apiUndo.redoIt (⟨[], [Func.user 2, Func.user 3]⟩ : Shared Nat)).trace := by
  have h := redoIt_pops_and_calls_most_recent
    (⟨[], [Func.user 2, Func.user 3]⟩ : Shared Nat) (by decide)
  exact ⟨by decide, h.1, by decide, by decide⟩

/-- C6: `apiUndo.doIt` is a no-op for every shared state and every
argument list: it returns the state unchanged and performs no effect, in
particular it calls none of the stored functions. -/
theorem doIt_is_noop {α A : Type} (s : Shared α) (args : A) :
    apiUndo.doIt s args = (s, ([] : List (Event α))) := rfl

/-- C7: `apiUndo.isUndoable` returns `True` in every state,
unconditionally. -/
theorem isUndoable_always_true {α : Type} (s : Shared α) :
    apiUndo.isUndoable s = true := rfl

/-- C8: `install` loads the shim through the host's plugin mechanism
(`loadPlugin` on this module's file, quietly), `uninstall` unloads it
(`unloadPlugin` on the file's base name), and `reinstall` queries the
host undo queue's state, toggles it off and back to the queried value,
uninstalls, drops and re-imports the module, installs it again, and
returns the fresh module object. -/
theorem install_uninstall_reinstall_plumbing (file : String) (state : Bool) :
    install file = [HostCall.loadPlugin file true] ∧
    uninstall file = [HostCall.unloadPlugin (basename file)] ∧
    (reinstall file state).1 = moduleName ∧
    (reinstall file state).2 =
      [HostCall.undoInfoQueryState,
       HostCall.undoInfoSetState false,
       HostCall.undoInfoSetState state,
       HostCall.unloadPlugin (basename file),
       HostCall.popModule moduleName,
       HostCall.importModule moduleName,
       HostCall.loadPlugin file true] := by
  refine ⟨rfl, rfl, rfl, ?_⟩
  simp [reinstall, uninstall, install]

/-- C9: the `redo` argument of `commit` is optional and defaults to
`lambda: None`: `commit s u` appends the no-op to the redo history, keeps
the two histories equal in length when they were equal, and a later
`redoIt` for that entry pops and calls the no-op, which leaves any world
unchanged under any interpretation. -/
theorem commit_redo_defaults_to_noop {α : Type} (s : Shared α) (u : Func α) :
    (commit s u).1.redoHistory = s.redoHistory ++ [Func.noop] ∧
    (commit s u).1.undoHistory = s.undoHistory ++ [u] ∧
    (s.undoHistory.length = s.redoHistory.length →
      (commit s u).1.undoHistory.length = (commit s u).1.redoHistory.length) ∧
    (apiUndo.redoIt (commit s u).1).trace =
      [Event.displayInfo "Redoing..", Event.popRedo Func.noop,
       Event.callFunc Func.noop] ∧
    (∀ (W : Type) (interp : α → W → W) (w : W),
      applyFunc interp Func.noop w = w) := by
  have hne : (commit s u).1.redoHistory ≠ [] := by simp [commit]
  refine ⟨rfl, rfl, ?_, ?_, fun _ _ _ => rfl⟩
  · intro h
    simp [commit, h]
  · rw [redoIt_of_ne_nil _ hne]
    have hlast : (commit s u).1.redoHistory.getLast hne = Func.noop := by
      simp [commit]
    simp [hlast]

/-- Witness for C9 at a concrete state of equal history lengths. -/
theorem commit_redo_defaults_to_noop_witness :
    (commit (⟨[Func.user 7], [Func.user 8]⟩ : Shared Nat)
        (Func.user 9)).1.undoHistory.length
      = (commit (⟨[Func.user 7], [Func.user 8]⟩ : Shared Nat)
          (Func.user 9)).1.redoHistory.length ∧
    applyFunc (fun f w => f + w) Func.noop 5 = 5 := by
  have h := commit_redo_defaults_to_noop
    (⟨[Func.user 7], [Func.user 8]⟩ : Shared Nat) (Func.user 9)
  exact ⟨h.2.2.1 (by decide), h.2.2.2.2 Nat (fun f w => f + w) 5⟩

/-- C10: popping from an empty history raises `IndexError` and is
atomic: `undoIt` on an empty undo history and `redoIt` on an empty redo
history each report the error, leave the whole shared state (both lists)
unchanged, and invoke no stored function. -/
theorem pop_on_empty_errors_atomically {α : Type} (s t : Shared α)
    (hs : s.undoHistory = []) (ht : t.redoHistory = []) :
    (apiUndo.undoIt s).error
      = some (PyError.indexError "pop from empty list") ∧
    (apiUndo.undoIt s).state = s ∧
    (∀ f : Func α, Event.callFunc f ∉ (apiUndo.undoIt s).trace) ∧
    (apiUndo.redoIt t).error
      = some (PyError.indexError "pop from empty list") ∧
    (apiUndo.redoIt t).state = t ∧
    (∀ f : Func α, Event.callFunc f ∉ (apiUndo.redoIt t).trace) := by
  rw [undoIt_of_nil s hs, redoIt_of_nil t ht]
  refine ⟨rfl, rfl, fun f => ?_, rfl, rfl, fun f => ?_⟩
  · simp
  · simp

/-- Witness for C10 at the initial (empty) state. -/
theorem pop_on_empty_errors_atomically_witness :
    (apiUndo.undoIt (initialShared : Shared Nat)).error
      = some (PyError.indexError "pop from empty list") ∧
    (apiUndo.undoIt (initialShared : Shared Nat)).state = initialShared ∧
    (apiUndo.redoIt (initialShared : Shared Nat)).state = initialShared := by
  have h := pop_on_empty_errors_atomically (initialShared : Shared Nat)
    initialShared rfl rfl
  exact ⟨h.1, h.2.1, h.2.2.2.2.1⟩

end Apiundo
